import Mathlib

/-!
Shallow embedding of `simplex` (src/main.rs), a minimal source-based package
manager: manifest parsing, store layout paths, the installed-package index,
and the fetch/build/install/remove operations of `PackageManager`.

External collaborators (the TOML syntax parser `toml::from_str`, the
filesystem, and the external tools curl/tar/sh) are modelled by explicit
inputs: a `Toml` value for an already-parsed document, booleans or
`Except` values for each fallible IO action, and a `String → StepResult`
oracle for `sh -c` build-step invocations.
-/

namespace Simplex

/-- A parsed TOML value (`toml::Value`), restricted to the constructors the
manifest parser can observe.  The parser only ever calls `as_str`,
`as_table` and `as_array`, so the payloads of numeric and boolean values
are never inspected and are omitted. -/
inductive Toml where
  | str (s : String)
  | float
  | int
  | bool
  | arr (xs : List Toml)
  | table (kvs : List (String × Toml))

/-- `toml::Table::get`: lookup of a key in a table (TOML forbids duplicate
keys, so first-match lookup is the map semantics). -/
def tableGet : List (String × Toml) → String → Option Toml
  | [], _ => none
  | (k, v) :: rest, key => if k = key then some v else tableGet rest key

/-- `toml::Value::get` with a string index: a lookup on tables, `None` on
every other value. -/
def Toml.get (t : Toml) (key : String) : Option Toml :=
  match t with
  | .table kvs => tableGet kvs key
  | _ => none

/-- `toml::Value::as_str`. -/
def Toml.as_str : Toml → Option String
  | .str s => some s
  | _ => none

/-- `toml::Value::as_table`. -/
def Toml.as_table : Toml → Option (List (String × Toml))
  | .table kvs => some kvs
  | _ => none

/-- `toml::Value::as_array`. -/
def Toml.as_array : Toml → Option (List Toml)
  | .arr xs => some xs
  | _ => none

/-- Rust's `Option::ok_or` followed by `?`: the value on `Some`, the given
error message otherwise (the `Box<dyn Error>` errors of `main.rs` are all
plain message strings). -/
def okOr {α : Type} : Option α → String → Except String α
  | some a, _ => .ok a
  | none, msg => .error msg

/-- `struct NewPackage { name, version }`. -/
structure NewPackage where
  name : String
  version : String
deriving DecidableEq, Repr

/-- `struct Source { url, sha256 }`. -/
structure Source where
  url : String
  sha256 : String
deriving DecidableEq, Repr

/-- `struct Build { system, arguments }`. -/
structure Build where
  system : String
  arguments : List String
deriving DecidableEq, Repr

/-- `struct PackageDescription`; the `dependencies` map is carried as its
list of key/value pairs in table order. -/
structure PackageDescription where
  package : NewPackage
  source : Source
  build : Build
  dependencies : List (String × String)
deriving DecidableEq, Repr

/-- `fn parse_package` (main.rs:47-69). -/
def parse_package (toml : Toml) : Except String NewPackage := do
  let packageVal ← okOr (toml.get "package") "Missing [package] section"
  let package ← okOr packageVal.as_table "Invalid [package] section"
  let nameVal ← okOr (tableGet package "name") "Missing name in [package]"
  let name ← okOr nameVal.as_str "Invalid name in [package]"
  let versionVal ← okOr (tableGet package "version") "Missing version in [package]"
  let version ← okOr versionVal.as_str "Invalid version in [package]"
  return { name, version }

/-- `fn parse_source` (main.rs:71-93). -/
def parse_source (toml : Toml) : Except String Source := do
  let sourceVal ← okOr (toml.get "source") "Missing [source] section"
  let source ← okOr sourceVal.as_table "Invalid [source] section"
  let urlVal ← okOr (tableGet source "url") "Missing url in [source]"
  let url ← okOr urlVal.as_str "Invalid url in [source]"
  let shaVal ← okOr (tableGet source "sha256") "Missing sha256 in [source]"
  let sha256 ← okOr shaVal.as_str "Invalid sha256 in [source]"
  return { url, sha256 }

/-- The `.iter().map(as_str.ok_or "Invalid argument").collect::<Result<..>>`
chain of `parse_build`: all-or-first-error over the array elements. -/
def parseArguments : List Toml → Except String (List String)
  | [] => .ok []
  | v :: vs => do
    let s ← okOr v.as_str "Invalid argument"
    let rest ← parseArguments vs
    return s :: rest

/-- `fn parse_build` (main.rs:95-122). -/
def parse_build (toml : Toml) : Except String Build := do
  let buildVal ← okOr (toml.get "build") "Missing [build] section"
  let build ← okOr buildVal.as_table "Invalid [build] section"
  let systemVal ← okOr (tableGet build "system") "Missing system in [build]"
  let system ← okOr systemVal.as_str "Invalid system in [build]"
  let argsVal ← okOr (tableGet build "arguments") "Missing arguments in [build]"
  let argsArr ← okOr argsVal.as_array "Invalid arguments in [build]"
  let arguments ← parseArguments argsArr
  return { system, arguments }

/-- The `.iter().map(..).collect::<Result<HashMap..>>` of
`parse_dependencies`, over the table's entries. -/
def parseDependencyPairs : List (String × Toml) → Except String (List (String × String))
  | [] => .ok []
  | (k, v) :: rest => do
    let s ← okOr v.as_str "Invalid dependency version"
    let r ← parseDependencyPairs rest
    return (k, s) :: r

/-- `fn parse_dependencies` (main.rs:124-141).  Note the
`.map(|v| v.as_table()).unwrap_or(None).unwrap_or(&binding)` chain: a
`dependencies` key that is absent, or present with a non-table value, both
fall back to the empty table. -/
def parse_dependencies (toml : Toml) : Except String (List (String × String)) :=
  let dependencies :=
    match (toml.get "dependencies").map Toml.as_table with
    | some (some t) => t
    | _ => []
  parseDependencyPairs dependencies

/-- `fn parse_package_description` (main.rs:143-152), applied to the `Toml`
value produced by `toml::from_str` on the document text (the external
library's syntax parsing is outside the model).  Rust evaluates the struct
literal's fields in source order, so the `?` operators fire in the order
package, source, build, dependencies. -/
def parse_package_description (toml : Toml) : Except String PackageDescription := do
  let package ← parse_package toml
  let source ← parse_source toml
  let build ← parse_build toml
  let dependencies ← parse_dependencies toml
  return { package, source, build, dependencies }

/-- `struct Package` (main.rs:12-19): the record the pipeline and the
installed-package index operate on. -/
structure Package where
  name : String
  version : String
  dependencies : List String
  build_steps : List String
  url : String
deriving DecidableEq, Repr

/-- The in-memory `HashMap<String, Package>` of installed packages, as an
association list; only `lookupIdx` observes it, so list order carries no
meaning beyond overwrite-on-insert. -/
def Index : Type := List (String × Package)

/-- `HashMap::get`. -/
def lookupIdx (idx : Index) (key : String) : Option Package :=
  match idx with
  | [] => none
  | (k, v) :: rest => if k = key then some v else lookupIdx rest key

/-- `HashMap::insert`: the new binding replaces any existing one. -/
def insertIdx (idx : Index) (key : String) (pkg : Package) : Index :=
  (key, pkg) :: List.filter (fun p => p.1 ≠ key) idx

/-- `HashMap::remove`: drops the binding for `key` (the removed value, if
any, is `lookupIdx idx key`). -/
def eraseIdx (idx : Index) (key : String) : Index :=
  List.filter (fun p => p.1 ≠ key) idx

/-- `struct PackageManager { installed_packages, store_path }`; paths are
modelled as the strings `Path::join` produces (`a.join(b) = a ++ "/" ++ b`
for the relative `b`s used here). -/
structure PackageManager where
  installed_packages : Index
  store_path : String

/-- The four directories `create_directory_structure` ensures
(main.rs:177-193): the store root, `downloads`, `builds`, `installed`. -/
def storeLayout (store_path : String) : List String :=
  [store_path,
   store_path ++ "/downloads",
   store_path ++ "/builds",
   store_path ++ "/installed"]

/-- One entry of `fs::read_dir` on `installed/`: its file name and whether
`path.is_dir()` holds. -/
structure DirEntry where
  name : String
  isDir : Bool
deriving DecidableEq, Repr

/-- Helper for `rsplitOnce`: split a character list at the FIRST occurrence
of `c`, returning the parts before and after it. -/
def firstSplit (c : Char) : List Char → Option (List Char × List Char)
  | [] => none
  | x :: xs =>
    if x = c then some ([], xs)
    else (firstSplit c xs).map (fun p => (x :: p.1, p.2))

/-- Rust `str::rsplit_once(c)`: split at the LAST occurrence of `c` into
the text before and after it, `None` when `c` does not occur. -/
def rsplitOnce (c : Char) (s : String) : Option (String × String) :=
  (firstSplit c s.data.reverse).map
    (fun p => (String.mk p.2.reverse, String.mk p.1.reverse))

/-- The identity-only `Package` record `sync_installed_packages` builds for
a directory name that split into `(name, version)` (main.rs:205-211). -/
def mkSyncedPackage (name version : String) : Package :=
  { name, version, dependencies := [], build_steps := [], url := "" }

/-- The body of the `for entry in fs::read_dir(..)` loop of
`sync_installed_packages` for one entry: non-directories and names with no
separator are skipped, others are inserted under the full directory name. -/
def syncStep (idx : Index) (e : DirEntry) : Index :=
  if e.isDir then
    match rsplitOnce '-' e.name with
    | some (name, version) => insertIdx idx e.name (mkSyncedPackage name version)
    | none => idx
  else idx

/-- `fn sync_installed_packages` (main.rs:195-220), given the entries that
`fs::read_dir` yields for `installed/`.  `self.installed_packages.clear()`
discards the previous mapping, so the fold starts from the empty index;
the only fallible operations are the `read_dir` IO calls, which the entry
list models as having succeeded. -/
def sync_installed_packages (pm : PackageManager) (entries : List DirEntry) : PackageManager :=
  { pm with installed_packages := entries.foldl syncStep [] }

/-- `fn fetch_package` (main.rs:222-234), with the working directory made
explicit and the `curl -LO <url>` outcome supplied as `curlOk`
(`output.status.success()`).  Returns the working directory at return time
and the result.  `fs::create_dir_all` and `env::set_current_dir` are
modelled as succeeding; note the function changes into `downloads/` and
returns — on both the Ok and the error path — without restoring `cwd`. -/
def fetch_package (pm : PackageManager) (cwd : String) (curlOk : Bool)
    (package : Package) : String × Except String Unit :=
  let download_dir := pm.store_path ++ "/downloads"
  ( download_dir,
    if curlOk then .ok ()
    else .error ("Failed to download package: " ++ package.name) )

/-- The build scratch directory `build_package` actually uses
(main.rs:240-241): `format!("{}-{}-build", ..)` joined DIRECTLY onto the
store path, not onto its `builds` subdirectory. -/
def buildDir (store_path : String) (package : Package) : String :=
  store_path ++ "/" ++ package.name ++ "-" ++ package.version ++ "-build"

/-- Modelled from the spec: the layout contract
`builds/<name>-<version>-build/` places build scratch space inside the
store's `builds/` subdirectory (spec §6); stated for comparison with the
`buildDir` the source computes. -/
def specBuildScratchDir (store_path : String) (package : Package) : String :=
  store_path ++ "/builds/" ++ package.name ++ "-" ++ package.version ++ "-build"

/-- The hard-coded extracted-source directory `build_package` changes into
(main.rs:260): `<buildDir>/<name>-autoconf-3360000`. -/
def sourceDir (store_path : String) (package : Package) : String :=
  buildDir store_path package ++ "/" ++ package.name ++ "-autoconf-3360000"

/-- The per-package install prefix `installed/<name>-<version>`
(main.rs:264-266 and 302-305). -/
def installPath (store_path : String) (package : Package) : String :=
  store_path ++ "/installed/" ++ package.name ++ "-" ++ package.version

/-- The build-step rewrite of main.rs:267-277: a step starting with
`./configure` gains ` --prefix=<installPath>`, all other steps pass through
(`str::starts_with` on the step text). -/
def modifyStep (install_path step : String) : String :=
  if ("./configure".data).isPrefixOf step.data
  then step ++ " --prefix=" ++ install_path
  else step

/-- Exit status and captured standard error of one
`Command::new("sh").arg("-c").arg(step).output()` invocation. -/
structure StepResult where
  success : Bool
  stderr : String

/-- The `for step in &modified_build_steps` loop (main.rs:280-292): run
steps in order, stop at the first failure with the step's command text and
stderr in the error.  Also returns the list of steps actually invoked. -/
def runSteps (run : String → StepResult) : List String → List String × Except String Unit
  | [] => ([], .ok ())
  | step :: rest =>
    let r := run step
    if r.success then
      let (executed, res) := runSteps run rest
      (step :: executed, res)
    else
      ([step], .error ("Build step failed: " ++ step ++ "\nOutput: " ++ r.stderr))

/-- `fn build_package` (main.rs:236-298), with the working directory made
explicit and the `sh -c` outcomes supplied by `run`.  The directory
creation, `set_current_dir` calls and the `tar` launch are modelled as
succeeding (`tar`'s exit status is not even checked by the source).  The
function chains into `buildDir` then `sourceDir`; an early return from a
failed step leaves the process in `sourceDir`, and the success path ends
with `set_current_dir(store_path)` — neither path returns to `cwd`.
Result: (steps executed, working directory at return, result). -/
def build_package (pm : PackageManager) (cwd : String) (run : String → StepResult)
    (package : Package) : List String × String × Except String Unit :=
  let install_path := installPath pm.store_path package
  let modified_build_steps := package.build_steps.map (modifyStep install_path)
  let (executed, res) := runSteps run modified_build_steps
  match res with
  | .ok () => (executed, pm.store_path, .ok ())
  | .error e => (executed, sourceDir pm.store_path package, .error e)

/-- `fn install_package` (main.rs:300-314): records the package in the
index — under `package.name.clone()` alone, not under the
`"{name}-{version}"` identity key — and always succeeds. -/
def install_package (pm : PackageManager) (package : Package) : PackageManager :=
  { pm with installed_packages := insertIdx pm.installed_packages package.name package }

/-- `fn remove_package` (main.rs:316-326): looks up `"{name}-{version}"`;
when present, `HashMap::remove` drops the index entry FIRST and
`fs::remove_dir_all` (outcome supplied as `removeDirResult`) runs after it,
its error propagating with the entry already gone.  Returns the updated
manager and the result. -/
def remove_package (pm : PackageManager) (removeDirResult : Except String Unit)
    (name version : String) : PackageManager × Except String Unit :=
  let key := name ++ "-" ++ version
  match lookupIdx pm.installed_packages key with
  | some _ =>
    ({ pm with installed_packages := eraseIdx pm.installed_packages key },
     removeDirResult)
  | none =>
    (pm, .error ("Package not found: " ++ name ++ " " ++ version))

/-- The install flow of `run()` (main.rs:397-399):
`fetch_package?; build_package?; install_package?` — a failing stage
returns its error and the later stages, in particular the index update of
`install_package`, never run.  Returns the manager, the final working
directory and the result. -/
def installFlow (pm : PackageManager) (cwd : String) (curlOk : Bool)
    (run : String → StepResult) (package : Package) :
    PackageManager × String × Except String Unit :=
  let (cwd1, fres) := fetch_package pm cwd curlOk package
  match fres with
  | .error e => (pm, cwd1, .error e)
  | .ok () =>
    let (_, cwd2, bres) := build_package pm cwd1 run package
    match bres with
    | .error e => (pm, cwd2, .error e)
    | .ok () => (install_package pm package, cwd2, .ok ())

/-! ### Fixtures and generic lemmas -/

/-- The hard-coded sqlite recipe `run()` installs (main.rs:385-396). -/
def sqlitePackage : Package :=
  { name := "sqlite", version := "3.36.0", dependencies := [],
    build_steps := ["./configure", "make", "make install"],
    url := "https://www.sqlite.org/2021/sqlite-autoconf-3360000.tar.gz" }

/-- A manager over `/simplex/store` with nothing installed. -/
def emptyManager : PackageManager :=
  { installed_packages := [], store_path := "/simplex/store" }

/-- A manager whose index holds sqlite 3.36.0 under its identity key, as
`sync_installed_packages` would record it. -/
def managerWithSqlite : PackageManager :=
  { installed_packages := [("sqlite-3.36.0", mkSyncedPackage "sqlite" "3.36.0")],
    store_path := "/simplex/store" }

/-- A step oracle under which every build step succeeds. -/
def allOkRun : String → StepResult :=
  fun _ => { success := true, stderr := "" }

/-- A step oracle under which exactly the step `make` exits non-zero. -/
def makeFailRun : String → StepResult :=
  fun step =>
    if step = "make" then { success := false, stderr := "make: *** error" }
    else { success := true, stderr := "" }

/-- Bind on an `Except.ok` continues with the value. -/
theorem exceptBindOk {ε α β : Type} (a : α) (f : α → Except ε β) :
    (Except.ok a : Except ε α) >>= f = f a := rfl

/-- Bind on an `Except.error` short-circuits. -/
theorem exceptBindErr {ε α β : Type} (e : ε) (f : α → Except ε β) :
    (Except.error e : Except ε α) >>= f = .error e := rfl

/-- `pure` into `Except` is `Except.ok`. -/
theorem exceptPure {ε α : Type} (a : α) : (pure a : Except ε α) = .ok a := rfl

/-- Looking up the key just inserted yields the inserted package. -/
theorem lookupIdx_insertIdx_self (idx : Index) (k : String) (v : Package) :
    lookupIdx (insertIdx idx k v) k = some v := by
  simp [insertIdx, lookupIdx]

/-! ### C1, C2, C3, C5, C9 -/

/-- C1: the claim says a successful install records the package under the
identity key `"{name}-{version}"` so that an immediately following
`remove(name, version)` finds it.  The code instead inserts under
`package.name` alone (main.rs:309-310), while `remove_package` looks up the
identity key: installing sqlite 3.36.0 into an empty manager records the
entry under `"sqlite"`, leaves `"sqlite-3.36.0"` unbound, and the
immediately following removal fails with "Package not found". -/
theorem install_records_name_key_not_identity_key :
    lookupIdx (install_package emptyManager sqlitePackage).installed_packages
      "sqlite" = some sqlitePackage ∧
    lookupIdx (install_package emptyManager sqlitePackage).installed_packages
      "sqlite-3.36.0" = none ∧
    (remove_package (install_package emptyManager sqlitePackage) (.ok ())
      "sqlite" "3.36.0").2 = .error "Package not found: sqlite 3.36.0" := by
  refine ⟨rfl, rfl, rfl⟩

/-- C2: the claim says `remove` deletes the install directory before
removing the index entry, so a failed deletion leaves the entry present.
The code removes the index entry first (`HashMap::remove` inside the `if`
condition, main.rs:318) and only then calls `fs::remove_dir_all`: when the
deletion fails, the error is returned with the entry already gone from the
index. -/
theorem remove_drops_index_entry_before_deletion :
    (remove_package managerWithSqlite (.error "Permission denied")
      "sqlite" "3.36.0").2 = .error "Permission denied" ∧
    lookupIdx (remove_package managerWithSqlite (.error "Permission denied")
      "sqlite" "3.36.0").1.installed_packages "sqlite-3.36.0" = none := by
  refine ⟨rfl, rfl⟩

/-- C3: the claim says the Fetch stage verifies the artifact against
`source.checksum` and a mismatch fails the install with its own error.
The code performs no verification at all: `fetch_package` succeeds exactly
when `curl` exits 0 — its result is fully determined by the download-tool
outcome, and the `Package` record the pipeline receives does not even
carry a checksum field for it to check against. -/
theorem fetch_result_ignores_checksum (pm : PackageManager) (cwd : String)
    (curlOk : Bool) (package : Package) :
    fetch_package pm cwd curlOk package =
      (pm.store_path ++ "/downloads",
        if curlOk then .ok ()
        else .error ("Failed to download package: " ++ package.name)) := rfl

/-- C5: the claim says the build scratch directory is
`builds/<name>-<version>-build` under the store root.  The code joins
`"{name}-{version}-build"` directly onto the store root (main.rs:240-241),
bypassing the `builds` subdirectory that `create_directory_structure` made:
for sqlite 3.36.0 under `/simplex/store` the scratch directory is
`/simplex/store/sqlite-3.36.0-build`, which is not the spec's
`/simplex/store/builds/sqlite-3.36.0-build` and does not lie under
`/simplex/store/builds/` at all. -/
theorem build_scratch_dir_outside_builds_subdir :
    buildDir "/simplex/store" sqlitePackage = "/simplex/store/sqlite-3.36.0-build" ∧
    specBuildScratchDir "/simplex/store" sqlitePackage =
      "/simplex/store/builds/sqlite-3.36.0-build" ∧
    buildDir "/simplex/store" sqlitePackage ≠
      specBuildScratchDir "/simplex/store" sqlitePackage ∧
    "/simplex/store/builds" ∈ storeLayout "/simplex/store" ∧
    ¬ ("/simplex/store/builds/".data.isPrefixOf
        (buildDir "/simplex/store" sqlitePackage).data) := by
  refine ⟨rfl, rfl, by decide, by decide, by decide⟩

/-- C9: the claim says fetch and build restore the working directory to its
entry value on every exit path.  Neither does: from an entry directory
`/home/user`, `fetch_package` returns — even on success — with the process
left in `downloads/`; `build_package` with a failing `make` step returns
from inside the extracted source tree; and even the successful build path
ends with `set_current_dir(store_path)`, the store root, not the entry
directory. -/
theorem working_directory_not_restored :
    (fetch_package emptyManager "/home/user" true sqlitePackage).2 = .ok () ∧
    (fetch_package emptyManager "/home/user" true sqlitePackage).1 =
      "/simplex/store/downloads" ∧
    (fetch_package emptyManager "/home/user" true sqlitePackage).1 ≠ "/home/user" ∧
    (build_package emptyManager "/home/user" makeFailRun sqlitePackage).2.1 =
      "/simplex/store/sqlite-3.36.0-build/sqlite-autoconf-3360000" ∧
    (build_package emptyManager "/home/user" makeFailRun sqlitePackage).2.1 ≠
      "/home/user" ∧
    (build_package emptyManager "/home/user" allOkRun sqlitePackage).2.2 = .ok () ∧
    (build_package emptyManager "/home/user" allOkRun sqlitePackage).2.1 =
      "/simplex/store" ∧
    (build_package emptyManager "/home/user" allOkRun sqlitePackage).2.1 ≠
      "/home/user" := by
  refine ⟨rfl, rfl, by decide, by decide, by decide, rfl, by decide, by decide⟩

/-! ### C4: sequential build steps, first failure aborts -/

/-- Prefixing a step list with steps that all succeed executes them and
continues with the rest. -/
theorem runSteps_prepend_ok (run : String → StepResult) (pre rest : List String)
    (hpre : ∀ s ∈ pre, (run s).success = true) :
    runSteps run (pre ++ rest) =
      (pre ++ (runSteps run rest).1, (runSteps run rest).2) := by
  induction pre with
  | nil => simp [runSteps]
  | cons s ss ih =>
    have hs : (run s).success = true := hpre s (by simp)
    have ih2 := ih (fun x hx => hpre x (by simp [hx]))
    simp [runSteps, hs, ih2]

/-- A four-step recipe (no step names a configure invocation, so the
prefix-injection rewrite leaves each step unchanged). -/
def fourStepPackage : Package :=
  { name := "demo", version := "1.0", dependencies := [],
    build_steps := ["step1", "step2", "step3", "step4"],
    url := "https://example.org/demo-1.0.tar.gz" }

/-- A step oracle under which exactly `step3` exits non-zero, with `boom`
captured on standard error. -/
def step3FailRun : String → StepResult :=
  fun step =>
    if step = "step3" then { success := false, stderr := "boom" }
    else { success := true, stderr := "" }

/-- C4: build steps (after the prefix rewrite of main.rs:267-277) execute
sequentially in order; the first step exiting non-zero ends execution with
exactly the steps up to and including it run, the error carries that step's
command text and its captured stderr, and the install flow then returns
that error with the manager — in particular the installed-package index —
unchanged, `install_package` never having run. -/
theorem build_steps_abort_on_first_failure (pm : PackageManager) (cwd : String)
    (run : String → StepResult) (package : Package) (pre post : List String)
    (bad : String)
    (hsplit : package.build_steps.map (modifyStep (installPath pm.store_path package)) =
      pre ++ bad :: post)
    (hpre : ∀ s ∈ pre, (run s).success = true)
    (hbad : (run bad).success = false) :
    (build_package pm cwd run package).1 = pre ++ [bad] ∧
    (build_package pm cwd run package).2.2 =
      .error ("Build step failed: " ++ bad ++ "\nOutput: " ++ (run bad).stderr) ∧
    (installFlow pm cwd true run package).1 = pm ∧
    (installFlow pm cwd true run package).2.2 =
      .error ("Build step failed: " ++ bad ++ "\nOutput: " ++ (run bad).stderr) := by
  have hrun : runSteps run
      (package.build_steps.map (modifyStep (installPath pm.store_path package))) =
      (pre ++ [bad],
        .error ("Build step failed: " ++ bad ++ "\nOutput: " ++ (run bad).stderr)) := by
    rw [hsplit, runSteps_prepend_ok run pre (bad :: post) hpre]
    simp [runSteps, hbad]
  refine ⟨?_, ?_, ?_, ?_⟩ <;>
    simp [build_package, installFlow, fetch_package, hrun]

/-- C4 witness: in a four-step recipe whose third step fails, exactly the
first three steps run, the error names `step3` and its stderr `boom`, and
the index stays empty. -/
theorem build_steps_abort_on_first_failure_witness :
    (build_package emptyManager "/home/user" step3FailRun fourStepPackage).1 =
      ["step1", "step2", "step3"] ∧
    (build_package emptyManager "/home/user" step3FailRun fourStepPackage).2.2 =
      .error ("Build step failed: " ++ "step3" ++ "\nOutput: " ++
        (step3FailRun "step3").stderr) ∧
    (installFlow emptyManager "/home/user" true step3FailRun fourStepPackage).1 =
      emptyManager ∧
    (installFlow emptyManager "/home/user" true step3FailRun fourStepPackage).2.2 =
      .error ("Build step failed: " ++ "step3" ++ "\nOutput: " ++
        (step3FailRun "step3").stderr) :=
  build_steps_abort_on_first_failure emptyManager "/home/user" step3FailRun
    fourStepPackage ["step1", "step2"] ["step4"] "step3"
    (by decide) (by decide) (by decide)

/-! ### C8: rebuilding the index from the installed/ directory -/

/-- C8: rebuilding the index ignores the previous in-memory mapping
(`clear()` first); an entry whose directory name has no `-` separator is
skipped without affecting the rest of the rebuild; and a directory entry
whose name splits on its last `-` into `(name, version)` is recorded under
the full directory name with that name and version. -/
theorem sync_rebuild_clears_splits_and_skips (pm : PackageManager)
    (entries pre post : List DirEntry) (w n v : String) :
    ((sync_installed_packages pm entries).installed_packages =
      (sync_installed_packages { pm with installed_packages := [] }
        entries).installed_packages) ∧
    (rsplitOnce '-' w = none →
      (sync_installed_packages pm (pre ++ ⟨w, true⟩ :: post)).installed_packages =
      (sync_installed_packages pm (pre ++ post)).installed_packages) ∧
    (rsplitOnce '-' w = some (n, v) →
      lookupIdx (sync_installed_packages pm (pre ++ [⟨w, true⟩])).installed_packages w =
        some (mkSyncedPackage n v)) := by
  refine ⟨rfl, ?_, ?_⟩
  · intro h
    simp [sync_installed_packages, List.foldl_append, syncStep, h]
  · intro h
    simp [sync_installed_packages, List.foldl_append, syncStep, h,
      lookupIdx_insertIdx_self]

/-- C8 witness: `rsplit_once` splits on the last separator
(`gnu-hello-2.12` gives name `gnu-hello`, version `2.12`); a store with a
`weirdname` directory rebuilds as if that entry were absent; and a
`gnu-hello-2.12` directory is recorded under its full name with the split
identity. -/
theorem sync_rebuild_clears_splits_and_skips_witness :
    rsplitOnce '-' "gnu-hello-2.12" = some ("gnu-hello", "2.12") ∧
    (sync_installed_packages managerWithSqlite
        [⟨"weirdname", true⟩, ⟨"sqlite-3.36.0", true⟩]).installed_packages =
      (sync_installed_packages managerWithSqlite
        [⟨"sqlite-3.36.0", true⟩]).installed_packages ∧
    lookupIdx (sync_installed_packages managerWithSqlite
        [⟨"weirdname", true⟩, ⟨"gnu-hello-2.12", true⟩]).installed_packages
      "gnu-hello-2.12" = some (mkSyncedPackage "gnu-hello" "2.12") :=
  ⟨by decide,
   (sync_rebuild_clears_splits_and_skips managerWithSqlite []
      [] [⟨"sqlite-3.36.0", true⟩] "weirdname" "" "").2.1 (by decide),
   (sync_rebuild_clears_splits_and_skips managerWithSqlite []
      [⟨"weirdname", true⟩] [] "gnu-hello-2.12" "gnu-hello" "2.12").2.2 (by decide)⟩

/-! ### Parser fixtures and lemmas (C6, C7, C10) -/

/-- `as_str` on a string value. -/
theorem as_str_str (s : String) : Toml.as_str (.str s) = some s := rfl

/-- `as_table` on a table value. -/
theorem as_table_table (kvs : List (String × Toml)) :
    Toml.as_table (.table kvs) = some kvs := rfl

/-- A missing `[package]` section fails `parse_package` with the section
named. -/
theorem parse_package_missing {doc : Toml} (h : doc.get "package" = none) :
    parse_package doc = .error "Missing [package] section" := by
  simp [parse_package, h, okOr, exceptBindErr]

/-- A missing `[source]` section fails `parse_source` with the section
named. -/
theorem parse_source_missing {doc : Toml} (h : doc.get "source" = none) :
    parse_source doc = .error "Missing [source] section" := by
  simp [parse_source, h, okOr, exceptBindErr]

/-- A missing `[build]` section fails `parse_build` with the section
named. -/
theorem parse_build_missing {doc : Toml} (h : doc.get "build" = none) :
    parse_build doc = .error "Missing [build] section" := by
  simp [parse_build, h, okOr, exceptBindErr]

/-- An absent `dependencies` key parses as the empty dependency set. -/
theorem parse_dependencies_absent {doc : Toml} (h : doc.get "dependencies" = none) :
    parse_dependencies doc = .ok [] := by
  simp [parse_dependencies, h, parseDependencyPairs]

/-- A document with only a well-formed `[package]` section. -/
def packageOnlyDoc : Toml :=
  .table [("package", .table [("name", .str "sqlite"), ("version", .str "3.36.0")])]

/-- A document with well-formed `[package]` and `[source]` but no
`[build]`. -/
def noBuildDoc : Toml :=
  .table
    [("package", .table [("name", .str "sqlite"), ("version", .str "3.36.0")]),
     ("source", .table [("url", .str "u"), ("sha256", .str "c")])]

/-- A complete document without a `[dependencies]` section. -/
def noDepsDoc : Toml :=
  .table
    [("package", .table [("name", .str "sqlite"), ("version", .str "3.36.0")]),
     ("source", .table [("url", .str "u"), ("sha256", .str "c")]),
     ("build", .table [("system", .str "make"), ("arguments", .arr [.str "install"])])]

/-- The description `noDepsDoc` parses to: an empty dependency set. -/
def noDepsDescription : PackageDescription :=
  { package := { name := "sqlite", version := "3.36.0" },
    source := { url := "u", sha256 := "c" },
    build := { system := "make", arguments := ["install"] },
    dependencies := [] }

/-- C7: missing `[package]`, `[source]` or `[build]` (the sections before
it in parse order being well-formed) fails the parse naming exactly the
missing section, while an absent `dependencies` section yields a successful
parse with an empty dependency set. -/
theorem missing_section_errors (doc : Toml) (p : NewPackage) (s : Source) (b : Build) :
    (doc.get "package" = none →
      parse_package_description doc = .error "Missing [package] section") ∧
    (parse_package doc = .ok p → doc.get "source" = none →
      parse_package_description doc = .error "Missing [source] section") ∧
    (parse_package doc = .ok p → parse_source doc = .ok s → doc.get "build" = none →
      parse_package_description doc = .error "Missing [build] section") ∧
    (parse_package doc = .ok p → parse_source doc = .ok s → parse_build doc = .ok b →
      doc.get "dependencies" = none →
      parse_package_description doc = .ok ⟨p, s, b, []⟩) := by
  refine ⟨?_, ?_, ?_, ?_⟩
  · intro h
    simp [parse_package_description, parse_package_missing h, exceptBindErr]
  · intro hp hs
    simp [parse_package_description, hp, parse_source_missing hs,
      exceptBindOk, exceptBindErr]
  · intro hp hs hb
    simp [parse_package_description, hp, hs, parse_build_missing hb,
      exceptBindOk, exceptBindErr]
  · intro hp hs hb hd
    simp [parse_package_description, hp, hs, hb, parse_dependencies_absent hd,
      exceptBindOk, exceptPure]

/-- C7 witness: the empty document names `[package]`; a package-only
document names `[source]` (the source test's expectation, main.rs:539-548);
a package+source document names `[build]`; and the full document without
`dependencies` parses with an empty dependency set. -/
theorem missing_section_errors_witness :
    parse_package_description (Toml.table []) = .error "Missing [package] section" ∧
    parse_package_description packageOnlyDoc = .error "Missing [source] section" ∧
    parse_package_description noBuildDoc = .error "Missing [build] section" ∧
    parse_package_description noDepsDoc = .ok noDepsDescription :=
  ⟨(missing_section_errors (Toml.table []) ⟨"", ""⟩ ⟨"", ""⟩ ⟨"", []⟩).1 rfl,
   (missing_section_errors packageOnlyDoc ⟨"sqlite", "3.36.0"⟩ ⟨"", ""⟩ ⟨"", []⟩).2.1
     rfl rfl,
   (missing_section_errors noBuildDoc ⟨"sqlite", "3.36.0"⟩ ⟨"u", "c"⟩ ⟨"", []⟩).2.2.1
     rfl rfl rfl,
   (missing_section_errors noDepsDoc ⟨"sqlite", "3.36.0"⟩ ⟨"u", "c"⟩
     ⟨"make", ["install"]⟩).2.2.2 rfl rfl rfl rfl⟩

/-- The invalid-type test fixture (main.rs:552-562): `version = 3.36`, a
TOML float where a string is required. -/
def numericVersionDoc : Toml :=
  .table
    [("package", .table [("name", .str "sqlite"), ("version", .float)]),
     ("source", .table
       [("url", .str "https://www.sqlite.org/2021/sqlite-autoconf-3360000.tar.gz"),
        ("sha256", .str "bd90c3eb96bee996206b83be7065c9ce19aef38c3f4fb53073ada0d0b69bbce3")]),
     ("build", .table [("system", .str "make"), ("arguments", .arr [.str "install"])])]

/-- A document whose `dependencies` key holds a string, not a table. -/
def wrongDepsDoc : Toml :=
  .table
    [("package", .table [("name", .str "sqlite"), ("version", .str "3.36.0")]),
     ("source", .table [("url", .str "u"), ("sha256", .str "c")]),
     ("build", .table [("system", .str "make"), ("arguments", .arr [.str "install"])]),
     ("dependencies", .str "oops")]

/-- A document with one dependency whose constraint value is an integer,
not a string. -/
def badDepValueDoc : Toml :=
  .table
    [("package", .table [("name", .str "sqlite"), ("version", .str "3.36.0")]),
     ("source", .table [("url", .str "u"), ("sha256", .str "c")]),
     ("build", .table [("system", .str "make"), ("arguments", .arr [.str "install"])]),
     ("dependencies", .table [("libsomething", .int)])]

/-- C6 counterexample: the claim requires a present-but-wrong-typed
`dependencies` section to fail with a type error, but a document whose
`dependencies` key holds a string parses SUCCESSFULLY, the section silently
treated as empty (the `.map(as_table).unwrap_or(None).unwrap_or(&binding)`
fallback of main.rs:124-130). -/
theorem wrong_typed_dependencies_section_accepted :
    parse_package_description wrongDepsDoc =
      .ok { package := { name := "sqlite", version := "3.36.0" },
            source := { url := "u", sha256 := "c" },
            build := { system := "make", arguments := ["install"] },
            dependencies := [] } := rfl

/-- A document whose `package` key is not a table. -/
def badPackageSectionDoc : Toml := .table [("package", .int)]

/-- A document with `[package]` well-formed but `source` not a table. -/
def badSourceSectionDoc : Toml :=
  .table
    [("package", .table [("name", .str "sqlite"), ("version", .str "3.36.0")]),
     ("source", .int)]

/-- A document with `[package]` and `[source]` well-formed but `build` not
a table. -/
def badBuildSectionDoc : Toml :=
  .table
    [("package", .table [("name", .str "sqlite"), ("version", .str "3.36.0")]),
     ("source", .table [("url", .str "u"), ("sha256", .str "c")]),
     ("build", .int)]

/-- A document whose `name` field is an integer. -/
def badNameDoc : Toml :=
  .table [("package", .table [("name", .int), ("version", .str "3.36.0")])]

/-- A document whose `url` field is an integer. -/
def badUrlDoc : Toml :=
  .table
    [("package", .table [("name", .str "sqlite"), ("version", .str "3.36.0")]),
     ("source", .table [("url", .int)])]

/-- A document whose `sha256` field is an integer. -/
def badShaDoc : Toml :=
  .table
    [("package", .table [("name", .str "sqlite"), ("version", .str "3.36.0")]),
     ("source", .table [("url", .str "u"), ("sha256", .int)])]

/-- A document whose `system` field is an integer. -/
def badSystemDoc : Toml :=
  .table
    [("package", .table [("name", .str "sqlite"), ("version", .str "3.36.0")]),
     ("source", .table [("url", .str "u"), ("sha256", .str "c")]),
     ("build", .table [("system", .int)])]

/-- A document whose `arguments` field is a string, not an array. -/
def badArgumentsDoc : Toml :=
  .table
    [("package", .table [("name", .str "sqlite"), ("version", .str "3.36.0")]),
     ("source", .table [("url", .str "u"), ("sha256", .str "c")]),
     ("build", .table [("system", .str "make"), ("arguments", .str "install")])]

/-- A present-but-non-table `package` value names the section. -/
theorem parse_package_invalid_section {doc v : Toml}
    (h1 : doc.get "package" = some v) (h2 : v.as_table = none) :
    parse_package doc = .error "Invalid [package] section" := by
  simp [parse_package, h1, h2, okOr, exceptBindOk, exceptBindErr]

/-- A present-but-non-string `name` names field and section. -/
theorem parse_package_invalid_name {doc v : Toml} {kvs : List (String × Toml)}
    (h1 : doc.get "package" = some (.table kvs))
    (h2 : tableGet kvs "name" = some v) (h3 : v.as_str = none) :
    parse_package doc = .error "Invalid name in [package]" := by
  simp [parse_package, h1, h2, h3, okOr, as_table_table, exceptBindOk, exceptBindErr]

/-- A present-but-non-string `version` names field and section. -/
theorem parse_package_invalid_version {doc v : Toml} {kvs : List (String × Toml)}
    {nm : String} (h1 : doc.get "package" = some (.table kvs))
    (h2 : tableGet kvs "name" = some (.str nm))
    (h3 : tableGet kvs "version" = some v) (h4 : v.as_str = none) :
    parse_package doc = .error "Invalid version in [package]" := by
  simp [parse_package, h1, h2, h3, h4, okOr, as_table_table, as_str_str,
    exceptBindOk, exceptBindErr]

/-- A present-but-non-table `source` value names the section. -/
theorem parse_source_invalid_section {doc v : Toml}
    (h1 : doc.get "source" = some v) (h2 : v.as_table = none) :
    parse_source doc = .error "Invalid [source] section" := by
  simp [parse_source, h1, h2, okOr, exceptBindOk, exceptBindErr]

/-- A present-but-non-string `url` names field and section. -/
theorem parse_source_invalid_url {doc v : Toml} {kvs : List (String × Toml)}
    (h1 : doc.get "source" = some (.table kvs))
    (h2 : tableGet kvs "url" = some v) (h3 : v.as_str = none) :
    parse_source doc = .error "Invalid url in [source]" := by
  simp [parse_source, h1, h2, h3, okOr, as_table_table, exceptBindOk, exceptBindErr]

/-- A present-but-non-string `sha256` names field and section. -/
theorem parse_source_invalid_sha {doc v : Toml} {kvs : List (String × Toml)}
    {nm : String} (h1 : doc.get "source" = some (.table kvs))
    (h2 : tableGet kvs "url" = some (.str nm))
    (h3 : tableGet kvs "sha256" = some v) (h4 : v.as_str = none) :
    parse_source doc = .error "Invalid sha256 in [source]" := by
  simp [parse_source, h1, h2, h3, h4, okOr, as_table_table, as_str_str,
    exceptBindOk, exceptBindErr]

/-- A present-but-non-table `build` value names the section. -/
theorem parse_build_invalid_section {doc v : Toml}
    (h1 : doc.get "build" = some v) (h2 : v.as_table = none) :
    parse_build doc = .error "Invalid [build] section" := by
  simp [parse_build, h1, h2, okOr, exceptBindOk, exceptBindErr]

/-- A present-but-non-string `system` names field and section. -/
theorem parse_build_invalid_system {doc v : Toml} {kvs : List (String × Toml)}
    (h1 : doc.get "build" = some (.table kvs))
    (h2 : tableGet kvs "system" = some v) (h3 : v.as_str = none) :
    parse_build doc = .error "Invalid system in [build]" := by
  simp [parse_build, h1, h2, h3, okOr, as_table_table, exceptBindOk, exceptBindErr]

/-- A present-but-non-array `arguments` names field and section. -/
theorem parse_build_invalid_arguments {doc v : Toml} {kvs : List (String × Toml)}
    {nm : String} (h1 : doc.get "build" = some (.table kvs))
    (h2 : tableGet kvs "system" = some (.str nm))
    (h3 : tableGet kvs "arguments" = some v) (h4 : v.as_array = none) :
    parse_build doc = .error "Invalid arguments in [build]" := by
  simp [parse_build, h1, h2, h3, h4, okOr, as_table_table, as_str_str,
    exceptBindOk, exceptBindErr]

/-- A `parse_package` error is the whole parse's error. -/
theorem ppd_err_package {doc : Toml} {e : String}
    (h : parse_package doc = .error e) :
    parse_package_description doc = .error e := by
  simp [parse_package_description, h, exceptBindErr]

/-- A `parse_source` error is the whole parse's error once `[package]`
parsed. -/
theorem ppd_err_source {doc : Toml} {p : NewPackage} {e : String}
    (hp : parse_package doc = .ok p) (h : parse_source doc = .error e) :
    parse_package_description doc = .error e := by
  simp [parse_package_description, hp, h, exceptBindOk, exceptBindErr]

/-- A `parse_build` error is the whole parse's error once `[package]` and
`[source]` parsed. -/
theorem ppd_err_build {doc : Toml} {p : NewPackage} {s : Source} {e : String}
    (hp : parse_package doc = .ok p) (hs : parse_source doc = .ok s)
    (h : parse_build doc = .error e) :
    parse_package_description doc = .error e := by
  simp [parse_package_description, hp, hs, h, exceptBindOk, exceptBindErr]

/-- C6 amended: a present-but-wrong-typed required section (`package`,
`source`, `build`) or required field of those sections (`name`, `version`,
`url`, `sha256`, `system`, `arguments`) fails the parse with a type error
naming the offending field and section (`Invalid <field> in [<section>]`,
or `Invalid [<section>] section` for the section itself), every such type
error being distinct from every missing-section/missing-field error; but a
wrong-typed `dependencies` SECTION is silently treated as empty rather
than an error, and a wrong-typed dependency VALUE fails with the generic
`Invalid dependency version`, which names neither the offending field nor
its section.  (Sections and fields are checked in parse order, so each
case assumes the parts checked before it are well-formed.) -/
theorem wrong_typed_field_error_taxonomy (doc : Toml) (kvs : List (String × Toml))
    (nm : String) (v : Toml) (p : NewPackage) (s : Source) (k : String)
    (rest : List (String × Toml)) :
    (doc.get "package" = some v → v.as_table = none →
      parse_package_description doc = .error "Invalid [package] section") ∧
    (parse_package doc = .ok p → doc.get "source" = some v → v.as_table = none →
      parse_package_description doc = .error "Invalid [source] section") ∧
    (parse_package doc = .ok p → parse_source doc = .ok s →
      doc.get "build" = some v → v.as_table = none →
      parse_package_description doc = .error "Invalid [build] section") ∧
    (doc.get "package" = some (.table kvs) → tableGet kvs "name" = some v →
      v.as_str = none →
      parse_package_description doc = .error "Invalid name in [package]") ∧
    (doc.get "package" = some (.table kvs) →
      tableGet kvs "name" = some (.str nm) →
      tableGet kvs "version" = some v → v.as_str = none →
      parse_package doc = .error "Invalid version in [package]" ∧
      parse_package_description doc = .error "Invalid version in [package]") ∧
    (parse_package doc = .ok p → doc.get "source" = some (.table kvs) →
      tableGet kvs "url" = some v → v.as_str = none →
      parse_package_description doc = .error "Invalid url in [source]") ∧
    (parse_package doc = .ok p → doc.get "source" = some (.table kvs) →
      tableGet kvs "url" = some (.str nm) →
      tableGet kvs "sha256" = some v → v.as_str = none →
      parse_package_description doc = .error "Invalid sha256 in [source]") ∧
    (parse_package doc = .ok p → parse_source doc = .ok s →
      doc.get "build" = some (.table kvs) →
      tableGet kvs "system" = some v → v.as_str = none →
      parse_package_description doc = .error "Invalid system in [build]") ∧
    (parse_package doc = .ok p → parse_source doc = .ok s →
      doc.get "build" = some (.table kvs) →
      tableGet kvs "system" = some (.str nm) →
      tableGet kvs "arguments" = some v → v.as_array = none →
      parse_package_description doc = .error "Invalid arguments in [build]") ∧
    (∀ e ∈ ["Invalid [package] section", "Invalid [source] section",
        "Invalid [build] section", "Invalid name in [package]",
        "Invalid version in [package]", "Invalid url in [source]",
        "Invalid sha256 in [source]", "Invalid system in [build]",
        "Invalid arguments in [build]"],
      e ∉ ["Missing [package] section", "Missing [source] section",
        "Missing [build] section", "Missing name in [package]",
        "Missing version in [package]", "Missing url in [source]",
        "Missing sha256 in [source]", "Missing system in [build]",
        "Missing arguments in [build]"]) ∧
    (doc.get "dependencies" = some v → v.as_table = none →
      parse_dependencies doc = .ok []) ∧
    (doc.get "dependencies" = some (.table ((k, v) :: rest)) → v.as_str = none →
      parse_dependencies doc = .error "Invalid dependency version") := by
  refine ⟨?_, ?_, ?_, ?_, ?_, ?_, ?_, ?_, ?_, by decide, ?_, ?_⟩
  · intro h1 h2
    exact ppd_err_package (parse_package_invalid_section h1 h2)
  · intro hp h1 h2
    exact ppd_err_source hp (parse_source_invalid_section h1 h2)
  · intro hp hs h1 h2
    exact ppd_err_build hp hs (parse_build_invalid_section h1 h2)
  · intro h1 h2 h3
    exact ppd_err_package (parse_package_invalid_name h1 h2 h3)
  · intro h1 h2 h3 h4
    have hpp := parse_package_invalid_version h1 h2 h3 h4
    exact ⟨hpp, ppd_err_package hpp⟩
  · intro hp h1 h2 h3
    exact ppd_err_source hp (parse_source_invalid_url h1 h2 h3)
  · intro hp h1 h2 h3 h4
    exact ppd_err_source hp (parse_source_invalid_sha h1 h2 h3 h4)
  · intro hp hs h1 h2 h3
    exact ppd_err_build hp hs (parse_build_invalid_system h1 h2 h3)
  · intro hp hs h1 h2 h3 h4
    exact ppd_err_build hp hs (parse_build_invalid_arguments h1 h2 h3 h4)
  · intro h1 h2
    simp [parse_dependencies, h1, h2, parseDependencyPairs]
  · intro h1 h2
    simp [parse_dependencies, h1, as_table_table, parseDependencyPairs, h2, okOr,
      exceptBindErr]

/-- C6 witness: each wrong-typed section and field fixture fails with its
naming type error — the numeric-version case matching the invalid-type
test's expectation (main.rs:563-569) — while the string-valued
`dependencies` section parses as empty and the integer dependency
constraint fails with the generic error. -/
theorem wrong_typed_field_error_taxonomy_witness :
    parse_package_description badPackageSectionDoc =
      .error "Invalid [package] section" ∧
    parse_package_description badSourceSectionDoc =
      .error "Invalid [source] section" ∧
    parse_package_description badBuildSectionDoc =
      .error "Invalid [build] section" ∧
    parse_package_description badNameDoc = .error "Invalid name in [package]" ∧
    parse_package numericVersionDoc = .error "Invalid version in [package]" ∧
    parse_package_description numericVersionDoc =
      .error "Invalid version in [package]" ∧
    parse_package_description badUrlDoc = .error "Invalid url in [source]" ∧
    parse_package_description badShaDoc = .error "Invalid sha256 in [source]" ∧
    parse_package_description badSystemDoc = .error "Invalid system in [build]" ∧
    parse_package_description badArgumentsDoc =
      .error "Invalid arguments in [build]" ∧
    parse_dependencies wrongDepsDoc = .ok [] ∧
    parse_dependencies badDepValueDoc = .error "Invalid dependency version" := by
  have t1 := wrong_typed_field_error_taxonomy badPackageSectionDoc [] ""
    Toml.int ⟨"", ""⟩ ⟨"", ""⟩ "" []
  have t2 := wrong_typed_field_error_taxonomy badSourceSectionDoc [] ""
    Toml.int ⟨"sqlite", "3.36.0"⟩ ⟨"", ""⟩ "" []
  have t3 := wrong_typed_field_error_taxonomy badBuildSectionDoc [] ""
    Toml.int ⟨"sqlite", "3.36.0"⟩ ⟨"u", "c"⟩ "" []
  have t4 := wrong_typed_field_error_taxonomy badNameDoc
    [("name", Toml.int), ("version", .str "3.36.0")] ""
    Toml.int ⟨"", ""⟩ ⟨"", ""⟩ "" []
  have t5 := wrong_typed_field_error_taxonomy numericVersionDoc
    [("name", .str "sqlite"), ("version", Toml.float)] "sqlite" Toml.float
    ⟨"", ""⟩ ⟨"", ""⟩ "" []
  have t6 := wrong_typed_field_error_taxonomy badUrlDoc [("url", Toml.int)] ""
    Toml.int ⟨"sqlite", "3.36.0"⟩ ⟨"", ""⟩ "" []
  have t7 := wrong_typed_field_error_taxonomy badShaDoc
    [("url", .str "u"), ("sha256", Toml.int)] "u" Toml.int
    ⟨"sqlite", "3.36.0"⟩ ⟨"", ""⟩ "" []
  have t8 := wrong_typed_field_error_taxonomy badSystemDoc
    [("system", Toml.int)] "" Toml.int ⟨"sqlite", "3.36.0"⟩ ⟨"u", "c"⟩ "" []
  have t9 := wrong_typed_field_error_taxonomy badArgumentsDoc
    [("system", .str "make"), ("arguments", .str "install")] "make"
    (Toml.str "install") ⟨"sqlite", "3.36.0"⟩ ⟨"u", "c"⟩ "" []
  have t11 := wrong_typed_field_error_taxonomy wrongDepsDoc [] ""
    (Toml.str "oops") ⟨"", ""⟩ ⟨"", ""⟩ "" []
  have t12 := wrong_typed_field_error_taxonomy badDepValueDoc [] ""
    Toml.int ⟨"", ""⟩ ⟨"", ""⟩ "libsomething" []
  exact ⟨t1.1 (by rfl) (by rfl),
    t2.2.1 (by rfl) (by rfl) (by rfl),
    t3.2.2.1 (by rfl) (by rfl) (by rfl) (by rfl),
    t4.2.2.2.1 (by rfl) (by rfl) (by rfl),
    (t5.2.2.2.2.1 (by rfl) (by rfl) (by rfl) (by rfl)).1,
    (t5.2.2.2.2.1 (by rfl) (by rfl) (by rfl) (by rfl)).2,
    t6.2.2.2.2.2.1 (by rfl) (by rfl) (by rfl) (by rfl),
    t7.2.2.2.2.2.2.1 (by rfl) (by rfl) (by rfl) (by rfl) (by rfl),
    t8.2.2.2.2.2.2.2.1 (by rfl) (by rfl) (by rfl) (by rfl) (by rfl),
    t9.2.2.2.2.2.2.2.2.1 (by rfl) (by rfl) (by rfl) (by rfl) (by rfl) (by rfl),
    t11.2.2.2.2.2.2.2.2.2.2.1 (by rfl) (by rfl),
    t12.2.2.2.2.2.2.2.2.2.2.2 (by rfl) (by rfl)⟩

/-- The `VALID_TOML` test fixture (main.rs:436-450) as a parsed document:
well-formed `[package]`, `[source]`, `[build]`, `[dependencies]` plus the
unrecognized extra section `[env]`. -/
def validEnvDoc : Toml :=
  .table
    [("package", .table [("name", .str "sqlite"), ("version", .str "3.36.0")]),
     ("source", .table
       [("url", .str "https://www.sqlite.org/2021/sqlite-autoconf-3360000.tar.gz"),
        ("sha256", .str "bd90c3eb96bee996206b83be7065c9ce19aef38c3f4fb53073ada0d0b69bbce3")]),
     ("build", .table [("system", .str "make"),
       ("arguments", .arr [.str "install", .str "prefix=/simplex/store"])]),
     ("dependencies", .table [("libsomething", .str "^6.0")]),
     ("env", .table [("CFLAGS", .str "-DSQLITE_ENABLE_COLUMN_METADATA=1")])]

/-- `validEnvDoc` with the extra `[env]` section removed. -/
def strippedEnvDoc : Toml :=
  .table
    [("package", .table [("name", .str "sqlite"), ("version", .str "3.36.0")]),
     ("source", .table
       [("url", .str "https://www.sqlite.org/2021/sqlite-autoconf-3360000.tar.gz"),
        ("sha256", .str "bd90c3eb96bee996206b83be7065c9ce19aef38c3f4fb53073ada0d0b69bbce3")]),
     ("build", .table [("system", .str "make"),
       ("arguments", .arr [.str "install", .str "prefix=/simplex/store"])]),
     ("dependencies", .table [("libsomething", .str "^6.0")])]

/-- The description both documents parse to. -/
def validDescription : PackageDescription :=
  { package := { name := "sqlite", version := "3.36.0" },
    source := { url := "https://www.sqlite.org/2021/sqlite-autoconf-3360000.tar.gz",
                sha256 := "bd90c3eb96bee996206b83be7065c9ce19aef38c3f4fb53073ada0d0b69bbce3" },
    build := { system := "make", arguments := ["install", "prefix=/simplex/store"] },
    dependencies := [("libsomething", "^6.0")] }

/-- C10: the `VALID_TOML` document with its extra `[env]` section parses
successfully, and in general the parse result depends only on the values
of the `package`, `source`, `build` and `dependencies` keys: two documents
agreeing on those four keys parse identically, so extra top-level sections
are ignored. -/
theorem parse_uses_only_known_sections :
    parse_package_description validEnvDoc = .ok validDescription ∧
    ∀ doc1 doc2 : Toml,
      doc1.get "package" = doc2.get "package" →
      doc1.get "source" = doc2.get "source" →
      doc1.get "build" = doc2.get "build" →
      doc1.get "dependencies" = doc2.get "dependencies" →
      parse_package_description doc1 = parse_package_description doc2 := by
  refine ⟨rfl, ?_⟩
  intro doc1 doc2 hp hs hb hd
  simp only [parse_package_description, parse_package, parse_source, parse_build,
    parse_dependencies, hp, hs, hb, hd]

/-- C10 witness: the fixture with `[env]` parses to the expected
description, and parses identically to the same document with `[env]`
removed. -/
theorem parse_uses_only_known_sections_witness :
    parse_package_description validEnvDoc = .ok validDescription ∧
    parse_package_description validEnvDoc = parse_package_description strippedEnvDoc :=
  ⟨parse_uses_only_known_sections.1,
   parse_uses_only_known_sections.2 validEnvDoc strippedEnvDoc rfl rfl rfl rfl⟩

end Simplex
